import Mathlib

/-!
Verification of the configuration-discovery algorithm of `uv-settings`
(`crates/uv-settings/src/lib.rs`): directory ascent (`find` /
`from_directory`), the user and system entry points, and the XDG system
config search (`locate_system_config_xdg`, `system_config_file`).

The filesystem is modelled abstractly: a map from paths to read results,
plus `is_dir` / `is_file` predicates. File content is abstracted at the
level of the external TOML deserializer: a `Content` records the outcome
of parsing the file under each of the two schemas of interest.
-/

namespace UvSettings

/-- A filesystem path, as its list of components (root = `[]`). -/
abbrev Path := List String

/-- `Path::join` with a single extra component. -/
def Path.join (p : Path) (s : String) : Path := p ++ [s]

/-- Split a list of characters at every occurrence of `sep`, keeping empty
pieces, mirroring Rust's `str::split`. -/
def splitCharList (sep : Char) : List Char → List (List Char)
  | [] => [[]]
  | c :: cs =>
    let rest := splitCharList sep cs
    if c = sep then [] :: rest
    else
      match rest with
      | r :: rs => (c :: r) :: rs
      | [] => [[c]]

/-- Split a string at every occurrence of `sep` (Rust `str::split(sep)`). -/
def splitChar (sep : Char) (s : String) : List String :=
  (splitCharList sep s.data).map (fun cs => String.mk cs)

/-- Convert a Rust path string to its component list (`Path::new`);
repeated or leading separators carry no extra components. -/
def Path.ofString (s : String) : Path :=
  (splitChar '/' s).filter (fun t => !t.data.isEmpty)

/-- `Path::ancestors` on the reversed (leaf-first) component list. -/
def ancestorsRevAux : List String → List (List String)
  | [] => [[]]
  | c :: rest => (c :: rest) :: ancestorsRevAux rest

/-- `Path::ancestors`: the path itself, then each parent, ending with the
root `[]`. -/
def Path.ancestors (p : Path) : List Path :=
  (ancestorsRevAux p.reverse).map List.reverse

/-- Modelled from the spec: the partial-configuration record (`Options`,
defined in the crate's `settings.rs`, which mirrors the full schema with
every field optional). Two representative optional fields suffice for the
discovery algorithm, which treats the record opaquely. -/
structure Options where
  fieldA : Option String
  fieldB : Option String
deriving DecidableEq

/-- The record with every field unset (what an empty TOML table or empty
reserved section deserializes to). -/
def Options.empty : Options := ⟨none, none⟩

/-- Modelled from the spec: the `[tool]` table of a secondary manifest,
with the reserved `uv` key optional (`Tools` in `settings.rs`). -/
structure Tools where
  uv : Option Options
deriving DecidableEq

/-- Modelled from the spec: the parsed secondary project manifest
(`PyProjectToml` in `settings.rs`), with the `[tool]` table optional. -/
structure PyProjectToml where
  tool : Option Tools
deriving DecidableEq

/-- File content, abstracted at the level of the external TOML
deserializer: the outcome of `toml::from_str::<Options>` and of
`toml::from_str::<PyProjectToml>` on the content (`none` = parse error).
A present-but-empty reserved `[tool.uv]` section deserializes to
`tool = some ⟨some Options.empty⟩` (the key is present, so the optional
field is `some`). -/
structure Content where
  asOptions : Option Options
  asPyproject : Option PyProjectToml
deriving DecidableEq

/-- Outcome of `fs_err::read_to_string` on one path: the file's content,
a not-found error, or any other I/O error. -/
inductive ReadResult where
  | found (content : Content)
  | notFound
  | ioError
deriving DecidableEq

/-- The abstract filesystem state a resolution call reads. -/
structure FS where
  read : Path → ReadResult
  isDir : Path → Bool
  isFile : Path → Bool

/-- The kind carried by an I/O error (`std::io::ErrorKind`), collapsed to
the only distinction the code makes. -/
inductive IoKind where
  | notFound
  | other
deriving DecidableEq

/-- The crate's `Error` enum: `Io`, `PyprojectToml(path)`, `UvToml(path)`
(the TOML error payloads carry no information the algorithm consults). -/
inductive Error where
  | ioErr (kind : IoKind)
  | pyprojectToml (file : Path)
  | uvToml (file : Path)
deriving DecidableEq

/-- The two `warn_user!` diagnostics of the module: the same-directory
precedence conflict, and the skipped malformed secondary manifest. -/
inductive Warning where
  | precedenceConflict
  | malformedPyproject (file : Path)
deriving DecidableEq

deriving instance DecidableEq for Except

/-- `read_file`: read a path and parse it as a `uv.toml` document. -/
def read_file (fs : FS) (path : Path) : Except Error Options :=
  match fs.read path with
  | ReadResult.found c =>
    match c.asOptions with
    | some options => Except.ok options
    | none => Except.error (Error.uvToml path)
  | ReadResult.notFound => Except.error (Error.ioErr IoKind.notFound)
  | ReadResult.ioError => Except.error (Error.ioErr IoKind.other)

/-- `FilesystemOptions::from_directory`: load options from one directory,
preferring `uv.toml` over `pyproject.toml`, together with the warnings the
call emits. -/
def FilesystemOptions.from_directory (fs : FS) (dir : Path) :
    Except Error (Option Options) × List Warning :=
  match fs.read (Path.join dir "uv.toml") with
  | ReadResult.found c =>
    match c.asOptions with
    | none => (Except.error (Error.uvToml (Path.join dir "uv.toml")), [])
    | some options =>
      let warns :=
        match fs.read (Path.join dir "pyproject.toml") with
        | ReadResult.found c2 =>
          match c2.asPyproject with
          | some pyproject =>
            match pyproject.tool with
            | some tool =>
              if tool.uv.isSome then [Warning.precedenceConflict] else []
            | none => []
          | none => []
        | _ => []
      (Except.ok (some options), warns)
  | ReadResult.ioError => (Except.error (Error.ioErr IoKind.other), [])
  | ReadResult.notFound =>
    match fs.read (Path.join dir "pyproject.toml") with
    | ReadResult.found c =>
      match c.asPyproject with
      | none =>
        (Except.error (Error.pyprojectToml (Path.join dir "pyproject.toml")), [])
      | some pyproject =>
        match pyproject.tool with
        | none => (Except.ok none, [])
        | some tool =>
          match tool.uv with
          | none => (Except.ok none, [])
          | some options => (Except.ok (some options), [])
    | ReadResult.notFound => (Except.ok none, [])
    | ReadResult.ioError => (Except.error (Error.ioErr IoKind.other), [])

/-- The loop body of `FilesystemOptions::find` over the remaining
ancestors, accumulating emitted warnings. -/
def findGo (fs : FS) : List Path → List Warning →
    Except Error (Option Options) × List Warning
  | [], ws => (Except.ok none, ws)
  | d :: rest, ws =>
    match FilesystemOptions.from_directory fs d with
    | (Except.ok (some options), w) => (Except.ok (some options), ws ++ w)
    | (Except.ok none, w) => findGo fs rest (ws ++ w)
    | (Except.error (Error.pyprojectToml file), w) =>
      findGo fs rest (ws ++ w ++ [Warning.malformedPyproject file])
    | (Except.error e, w) => (Except.error e, ws ++ w)

/-- `FilesystemOptions::find`: walk `path.ancestors()` and return the
first configuration found, with the warnings emitted along the way. -/
def FilesystemOptions.find (fs : FS) (path : Path) :
    Except Error (Option Options) × List Warning :=
  findGo fs (Path.ancestors path) []

/-- The environment a resolution call reads: the resolved user
configuration directory (`user_config_dir()`, a pure function of the
platform and environment) and the raw `XDG_CONFIG_DIRS` value. -/
structure Env where
  userConfigDir : Option Path
  xdgConfigDirs : Option String

/-- `FilesystemOptions::user`: load the user-level configuration. -/
def FilesystemOptions.user (fs : FS) (env : Env) :
    Except Error (Option Options) :=
  match env.userConfigDir with
  | none => Except.ok none
  | some dir =>
    match read_file fs (Path.join (Path.join dir "uv") "uv.toml") with
    | Except.ok options => Except.ok (some options)
    | Except.error (Error.ioErr IoKind.notFound) => Except.ok none
    | Except.error e =>
      if fs.isDir dir then Except.error e else Except.ok none

/-- The `for` loop of `locate_system_config_xdg`: try each directory in
order, returning the first readable candidate. -/
def locateLoop (fs : FS) : List String → Option Path
  | [] => none
  | dir :: rest =>
    let uv_toml_path := Path.join (Path.join (Path.ofString dir) "uv") "uv.toml"
    if fs.isFile uv_toml_path then some uv_toml_path else locateLoop fs rest

/-- `locate_system_config_xdg`: search the colon-separated
`XDG_CONFIG_DIRS` value (default `/etc/xdg` when unset or empty), taking
segments while they are non-empty. -/
def locate_system_config_xdg (fs : FS) (value : Option String) :
    Option Path :=
  let dflt := "/etc/xdg"
  let config_dirs :=
    match value with
    | some s => if s.data.isEmpty then dflt else s
    | none => dflt
  locateLoop fs
    ((splitChar ':' config_dirs).takeWhile (fun s => !s.data.isEmpty))

/-- `system_config_file` (non-Windows branch): the XDG search, then the
fixed `/etc/uv/uv.toml` fallback gated on existence. -/
def system_config_file (fs : FS) (env : Env) : Option Path :=
  match locate_system_config_xdg fs env.xdgConfigDirs with
  | some path => some path
  | none =>
    let candidate := Path.ofString "/etc/uv/uv.toml"
    if fs.isFile candidate then some candidate else none

/-- `FilesystemOptions::system`: load the system-level configuration. -/
def FilesystemOptions.system (fs : FS) (env : Env) :
    Except Error (Option Options) :=
  match system_config_file fs env with
  | none => Except.ok none
  | some file =>
    match read_file fs file with
    | Except.ok options => Except.ok (some options)
    | Except.error e => Except.error e

/-- A `from_directory` outcome on which `find`'s loop keeps ascending:
either nothing found, or a malformed secondary manifest. -/
def continuesDiscovery (r : Except Error (Option Options)) : Bool :=
  match r with
  | Except.ok none => true
  | Except.error (Error.pyprojectToml _) => true
  | _ => false

/-- A distinguished configuration value (a populated record). -/
def optA : Options := ⟨some "A", none⟩

/-- A second, distinct populated configuration value. -/
def optB : Options := ⟨some "B", none⟩

/-- Content of a valid `uv.toml` carrying `optA`. -/
def contUvA : Content := ⟨some optA, none⟩

/-- Content of a valid `pyproject.toml` with a populated reserved
section carrying `optB`. -/
def contPyB : Content := ⟨none, some ⟨some ⟨some optB⟩⟩⟩

/-- Content of a `pyproject.toml` with a present-but-empty `[tool.uv]`
table. -/
def contPyEmptyUv : Content := ⟨none, some ⟨some ⟨some Options.empty⟩⟩⟩

/-- Content that fails to parse under either schema. -/
def contBad : Content := ⟨none, none⟩

/-- A directory holding both a valid `uv.toml` (`optA`) and a
`pyproject.toml` with a populated `[tool.uv]` table (`optB`). -/
def fsBoth : FS :=
  ⟨fun p =>
      if p = ["d", "uv.toml"] then ReadResult.found contUvA
      else if p = ["d", "pyproject.toml"] then ReadResult.found contPyB
      else ReadResult.notFound,
    fun _ => true,
    fun _ => false⟩

/-- The tree `A/B/C`: `A` holds a valid `uv.toml`, `B` holds a
`pyproject.toml` with a populated `[tool.uv]` table. -/
def fsTree : FS :=
  ⟨fun p =>
      if p = ["A", "uv.toml"] then ReadResult.found contUvA
      else if p = ["A", "B", "pyproject.toml"] then ReadResult.found contPyB
      else ReadResult.notFound,
    fun _ => true,
    fun _ => false⟩

/-- A filesystem whose only candidate system config lives under `b`. -/
def fsXdgB : FS :=
  ⟨fun _ => ReadResult.notFound,
    fun _ => false,
    fun p => if p = ["b", "uv", "uv.toml"] then true else false⟩

/-- A directory whose only file is a `pyproject.toml` with a
present-but-empty `[tool.uv]` table. -/
def fsEmptyUv : FS :=
  ⟨fun p =>
      if p = ["d", "pyproject.toml"] then ReadResult.found contPyEmptyUv
      else ReadResult.notFound,
    fun _ => true,
    fun _ => false⟩

/-- A directory whose `uv.toml` exists but fails to parse. -/
def fsBadUv : FS :=
  ⟨fun p =>
      if p = ["d", "uv.toml"] then ReadResult.found contBad
      else ReadResult.notFound,
    fun _ => true,
    fun _ => false⟩

/-- A directory `d` with a malformed `pyproject.toml`, whose parent holds
a valid `uv.toml`. -/
def fsBadPyGoodParent : FS :=
  ⟨fun p =>
      if p = ["d", "pyproject.toml"] then ReadResult.found contBad
      else if p = ["uv.toml"] then ReadResult.found contUvA
      else ReadResult.notFound,
    fun _ => true,
    fun _ => false⟩

/-- A directory whose only file is a `pyproject.toml` that parses with no
`[tool]` table at all. -/
def fsNoTool : FS :=
  ⟨fun p =>
      if p = ["d", "pyproject.toml"] then ReadResult.found ⟨none, some ⟨none⟩⟩
      else ReadResult.notFound,
    fun _ => true,
    fun _ => false⟩

/-- A filesystem on which every read fails with a non-not-found I/O error
and nothing is a directory (the `XDG_CONFIG_HOME=/dev/null` shape). -/
def fsNullCfg : FS := ⟨fun _ => ReadResult.ioError, fun _ => false, fun _ => false⟩

/-- A filesystem whose only candidate system config lives under
`second`. -/
def fsXdgSecond : FS :=
  ⟨fun _ => ReadResult.notFound,
    fun _ => false,
    fun p => if p = ["second", "uv", "uv.toml"] then true else false⟩

/-- A directory holding a valid `uv.toml` next to a `pyproject.toml` that
fails to parse. -/
def fsUvBadPy : FS :=
  ⟨fun p =>
      if p = ["d", "uv.toml"] then ReadResult.found contUvA
      else if p = ["d", "pyproject.toml"] then ReadResult.found contBad
      else ReadResult.notFound,
    fun _ => true,
    fun _ => false⟩

/-- Stepping `find`'s loop past a directory where a configuration is
found: the loop returns it at once. -/
theorem findGo_found (fs : FS) (d : Path) (rest : List Path)
    (ws w : List Warning) (o : Options)
    (h : FilesystemOptions.from_directory fs d = (Except.ok (some o), w)) :
    findGo fs (d :: rest) ws = (Except.ok (some o), ws ++ w) := by
  simp [findGo, h]

/-- Stepping `find`'s loop past a directory with nothing found: the loop
continues with the accumulated warnings. -/
theorem findGo_none (fs : FS) (d : Path) (rest : List Path)
    (ws w : List Warning)
    (h : FilesystemOptions.from_directory fs d = (Except.ok none, w)) :
    findGo fs (d :: rest) ws = findGo fs rest (ws ++ w) := by
  simp [findGo, h]

/-- Stepping `find`'s loop past a directory with a malformed secondary
manifest: the loop warns and continues. -/
theorem findGo_pyproject_error (fs : FS) (d : Path) (rest : List Path)
    (ws w : List Warning) (f : Path)
    (h : FilesystemOptions.from_directory fs d =
      (Except.error (Error.pyprojectToml f), w)) :
    findGo fs (d :: rest) ws =
      findGo fs rest (ws ++ w ++ [Warning.malformedPyproject f]) := by
  simp [findGo, h]

/-- Stepping `find`'s loop into a directory with a malformed dedicated
file: the loop stops with that error. -/
theorem findGo_uvToml_error (fs : FS) (d : Path) (rest : List Path)
    (ws w : List Warning) (f : Path)
    (h : FilesystemOptions.from_directory fs d =
      (Except.error (Error.uvToml f), w)) :
    findGo fs (d :: rest) ws = (Except.error (Error.uvToml f), ws ++ w) := by
  simp [findGo, h]

/-- `find`'s loop passes through any prefix of directories whose outcome
is continue-ascending, reaching the suffix with some accumulated
warnings. -/
theorem findGo_append (fs : FS) (l : List Path) :
    ∀ ds : List Path,
      (∀ x ∈ ds,
        continuesDiscovery (FilesystemOptions.from_directory fs x).1 = true) →
      ∀ ws, ∃ ws2, findGo fs (ds ++ l) ws = findGo fs l ws2 := by
  intro ds
  induction ds with
  | nil => exact fun _ ws => ⟨ws, rfl⟩
  | cons d rest ih =>
    intro h ws
    have hd : continuesDiscovery (FilesystemOptions.from_directory fs d).1 =
        true := h d (by simp)
    have hrest : ∀ x ∈ rest,
        continuesDiscovery (FilesystemOptions.from_directory fs x).1 = true :=
      fun x hx => h x (by simp [hx])
    rcases hfd : FilesystemOptions.from_directory fs d with ⟨r, w⟩
    rw [hfd] at hd
    cases r with
    | ok oo =>
      cases oo with
      | none =>
        rw [List.cons_append, findGo_none fs d (rest ++ l) ws w hfd]
        exact ih hrest (ws ++ w)
      | some o => simp [continuesDiscovery] at hd
    | error e =>
      cases e with
      | pyprojectToml f =>
        rw [List.cons_append, findGo_pyproject_error fs d (rest ++ l) ws w f hfd]
        exact ih hrest (ws ++ w ++ [Warning.malformedPyproject f])
      | ioErr k => simp [continuesDiscovery] at hd
      | uvToml f => simp [continuesDiscovery] at hd

/-- Claim C1: for every directory that contains both a valid dedicated
`uv.toml` and a `pyproject.toml` whose reserved `[tool.uv]` table is
populated, `from_directory` returns the configuration parsed from the
`uv.toml` (the embedded table's contents do not appear in the result),
and exactly one precedence-conflict warning is emitted. -/
theorem claim_C1_uv_toml_wins_single_warning (fs : FS) (dir : Path)
    (c c2 : Content) (o : Options) (pp : PyProjectToml) (t : Tools)
    (u : Options)
    (huv : fs.read (Path.join dir "uv.toml") = ReadResult.found c)
    (hparse : c.asOptions = some o)
    (hpy : fs.read (Path.join dir "pyproject.toml") = ReadResult.found c2)
    (hpp : c2.asPyproject = some pp)
    (htool : pp.tool = some t)
    (htu : t.uv = some u)
    (_hpop : u ≠ Options.empty) :
    FilesystemOptions.from_directory fs dir =
      (Except.ok (some o), [Warning.precedenceConflict]) := by
  simp [FilesystemOptions.from_directory, huv, hparse, hpy, hpp, htool, htu]

theorem claim_C1_witness :
    FilesystemOptions.from_directory fsBoth ["d"] =
      (Except.ok (some optA), [Warning.precedenceConflict]) :=
  claim_C1_uv_toml_wins_single_warning fsBoth ["d"] contUvA contPyB optA
    ⟨some ⟨some optB⟩⟩ ⟨some optB⟩ optB (by decide) (by decide) (by decide)
    (by decide) (by decide) (by decide) (by decide)

/-- Claim C2: `find` visits the start path and then each ancestor in
child-to-parent order and returns the configuration of the first (nearest)
directory yielding a hit, without merging across levels: on the tree
`A/B/C` with a valid `uv.toml` at `A` and a populated `[tool.uv]` in a
`pyproject.toml` at `B`, `find` from `C` returns `B`'s configuration, not
`A`'s. -/
theorem claim_C2_nearest_ancestor_wins :
    Path.ancestors ["A", "B", "C"] =
        [["A", "B", "C"], ["A", "B"], ["A"], []] ∧
      FilesystemOptions.find fsTree ["A", "B", "C"] =
        (Except.ok (some optB), []) ∧
      optB ≠ optA := by decide

/-- Claim C3 as amended: empty segments of the colon-separated XDG
config-dirs value are not skipped — iteration stops at the first empty
segment, so later segments are never consulted: searching `"a::b"`
consults exactly what searching `"a"` consults, and `":b"` yields no
candidate on any filesystem. -/
theorem claim_C3_empty_segment_stops_search (fs : FS) :
    locate_system_config_xdg fs (some "a::b") =
        locate_system_config_xdg fs (some "a") ∧
      locate_system_config_xdg fs (some ":b") = none :=
  ⟨rfl, rfl⟩

/-- Claim C3 counterexample: on a filesystem whose only readable candidate
file lives under `b`, the searches for `":b"` and `"a::b"` both return
nothing, although the claim says directory `b` is still consulted and its
candidate found. -/
theorem claim_C3_counterexample :
    fsXdgB.isFile ["b", "uv", "uv.toml"] = true ∧
      locate_system_config_xdg fsXdgB (some ":b") = none ∧
      locate_system_config_xdg fsXdgB (some "a::b") = none := by decide

/-- Claim C4: if, during `find`'s ascent, an ancestor directory contains a
`uv.toml` that exists but fails to parse, `find` returns an error naming
that file immediately, regardless of the directories above it. -/
theorem claim_C4_broken_uv_toml_stops_ascent (fs : FS) (start : Path)
    (ds1 ds2 : List Path) (d : Path) (c : Content)
    (hanc : Path.ancestors start = ds1 ++ d :: ds2)
    (hcont : ∀ x ∈ ds1,
      continuesDiscovery (FilesystemOptions.from_directory fs x).1 = true)
    (hread : fs.read (Path.join d "uv.toml") = ReadResult.found c)
    (hparse : c.asOptions = none) :
    (FilesystemOptions.find fs start).1 =
      Except.error (Error.uvToml (Path.join d "uv.toml")) := by
  have hfd : FilesystemOptions.from_directory fs d =
      (Except.error (Error.uvToml (Path.join d "uv.toml")), []) := by
    simp [FilesystemOptions.from_directory, hread, hparse]
  unfold FilesystemOptions.find
  rw [hanc]
  obtain ⟨ws2, hws⟩ := findGo_append fs (d :: ds2) ds1 hcont []
  rw [hws, findGo_uvToml_error fs d ds2 ws2 [] (Path.join d "uv.toml") hfd]

theorem claim_C4_witness :
    (FilesystemOptions.find fsBadUv ["d"]).1 =
      Except.error (Error.uvToml ["d", "uv.toml"]) :=
  claim_C4_broken_uv_toml_stops_ascent fsBadUv ["d"] [] [[]] ["d"] contBad
    (by decide) (by decide) (by decide) (by decide)

/-- Claim C5: if, during `find`'s ascent, a directory has no `uv.toml` and
its `pyproject.toml` exists but fails to parse at the document level,
`find` does not stop with an error there: it records the skip warning and
continues ascending, so a valid dedicated file in a higher ancestor is
still found and returned. -/
theorem claim_C5_malformed_pyproject_warn_continue (fs : FS) (start : Path)
    (ds1 ds2 : List Path) (d dup : Path) (c cup : Content) (o : Options)
    (hanc : Path.ancestors start = ds1 ++ d :: dup :: ds2)
    (hcont : ∀ x ∈ ds1,
      continuesDiscovery (FilesystemOptions.from_directory fs x).1 = true)
    (hnouv : fs.read (Path.join d "uv.toml") = ReadResult.notFound)
    (hpy : fs.read (Path.join d "pyproject.toml") = ReadResult.found c)
    (hbad : c.asPyproject = none)
    (huv : fs.read (Path.join dup "uv.toml") = ReadResult.found cup)
    (hgood : cup.asOptions = some o) :
    (FilesystemOptions.find fs start).1 = Except.ok (some o) ∧
      Warning.malformedPyproject (Path.join d "pyproject.toml") ∈
        (FilesystemOptions.find fs start).2 := by
  have hfd : FilesystemOptions.from_directory fs d =
      (Except.error (Error.pyprojectToml (Path.join d "pyproject.toml")), []) := by
    simp [FilesystemOptions.from_directory, hnouv, hpy, hbad]
  have hdup : ∃ w, FilesystemOptions.from_directory fs dup =
      (Except.ok (some o), w) := by
    simp only [FilesystemOptions.from_directory, huv, hgood]
    exact ⟨_, rfl⟩
  obtain ⟨w, hdup⟩ := hdup
  unfold FilesystemOptions.find
  rw [hanc]
  obtain ⟨ws2, hws⟩ := findGo_append fs (d :: dup :: ds2) ds1 hcont []
  rw [hws,
    findGo_pyproject_error fs d (dup :: ds2) ws2 []
      (Path.join d "pyproject.toml") hfd,
    findGo_found fs dup ds2
      (ws2 ++ [] ++ [Warning.malformedPyproject (Path.join d "pyproject.toml")])
      w o hdup]
  exact ⟨rfl, by simp⟩

theorem claim_C5_witness :
    (FilesystemOptions.find fsBadPyGoodParent ["d"]).1 =
        Except.ok (some optA) ∧
      Warning.malformedPyproject ["d", "pyproject.toml"] ∈
        (FilesystemOptions.find fsBadPyGoodParent ["d"]).2 :=
  claim_C5_malformed_pyproject_warn_continue fsBadPyGoodParent ["d"] [] []
    ["d"] [] contBad contUvA optA (by decide) (by decide) (by decide)
    (by decide) (by decide) (by decide) (by decide)

/-- Claim C6 as amended: for every directory with no `uv.toml` whose
`pyproject.toml` parses successfully but carries no `[tool]` table or no
`[tool.uv]` key, `from_directory` treats the directory as empty (no error,
no warning) and `find`'s loop continues ascent past it; a
present-but-empty `[tool.uv]` table is however not treated as absent (see
the counterexample). -/
theorem claim_C6_missing_section_treated_absent (fs : FS) (dir : Path)
    (c : Content) (pp : PyProjectToml)
    (hnouv : fs.read (Path.join dir "uv.toml") = ReadResult.notFound)
    (hpy : fs.read (Path.join dir "pyproject.toml") = ReadResult.found c)
    (hparse : c.asPyproject = some pp)
    (hnone : pp.tool = none ∨ ∃ t, pp.tool = some t ∧ t.uv = none) :
    FilesystemOptions.from_directory fs dir = (Except.ok none, []) ∧
      ∀ rest ws, findGo fs (dir :: rest) ws = findGo fs rest ws := by
  have hfd : FilesystemOptions.from_directory fs dir = (Except.ok none, []) := by
    rcases hnone with h | ⟨t, ht, htu⟩
    · simp [FilesystemOptions.from_directory, hnouv, hpy, hparse, h]
    · simp [FilesystemOptions.from_directory, hnouv, hpy, hparse, ht, htu]
  refine ⟨hfd, fun rest ws => ?_⟩
  rw [findGo_none fs dir rest ws [] hfd]
  simp

theorem claim_C6_witness :
    FilesystemOptions.from_directory fsNoTool ["d"] = (Except.ok none, []) ∧
      findGo fsNoTool [["d"], []] [] = findGo fsNoTool [[]] [] :=
  ⟨(claim_C6_missing_section_treated_absent fsNoTool ["d"] ⟨none, some ⟨none⟩⟩
      ⟨none⟩ (by decide) (by decide) (by decide) (Or.inl rfl)).1,
    (claim_C6_missing_section_treated_absent fsNoTool ["d"] ⟨none, some ⟨none⟩⟩
      ⟨none⟩ (by decide) (by decide) (by decide) (Or.inl rfl)).2 [[]] []⟩

/-- Claim C6 counterexample: a directory whose only file is a
`pyproject.toml` with a present-but-empty `[tool.uv]` table is not treated
as empty: `from_directory` returns a found configuration (with every field
unset) rather than the absent outcome. -/
theorem claim_C6_counterexample :
    FilesystemOptions.from_directory fsEmptyUv ["d"] =
        (Except.ok (some Options.empty), []) ∧
      (FilesystemOptions.from_directory fsEmptyUv ["d"]).1 ≠
        Except.ok none := by decide

/-- Claim C7: when the user configuration directory resolves but the
resolved path is not actually a directory (so reading the config file
under it fails), `user` returns the absent success value `Ok(None)`
rather than an error; only when it is a real directory do read failures
other than not-found propagate as errors. -/
theorem claim_C7_user_dir_not_directory (fs : FS) (env : Env) (dir : Path)
    (hdir : env.userConfigDir = some dir) :
    (∀ e, fs.isDir dir = false →
        read_file fs (Path.join (Path.join dir "uv") "uv.toml") =
          Except.error e →
        FilesystemOptions.user fs env = Except.ok none) ∧
      (∀ e, fs.isDir dir = true →
        read_file fs (Path.join (Path.join dir "uv") "uv.toml") =
          Except.error e →
        e ≠ Error.ioErr IoKind.notFound →
        FilesystemOptions.user fs env = Except.error e) := by
  constructor
  · intro e hnd hrf
    cases e with
    | ioErr k =>
      cases k with
      | notFound => simp [FilesystemOptions.user, hdir, hrf]
      | other => simp [FilesystemOptions.user, hdir, hrf, hnd]
    | pyprojectToml f => simp [FilesystemOptions.user, hdir, hrf, hnd]
    | uvToml f => simp [FilesystemOptions.user, hdir, hrf, hnd]
  · intro e hd hrf hne
    cases e with
    | ioErr k =>
      cases k with
      | notFound => exact absurd rfl hne
      | other => simp [FilesystemOptions.user, hdir, hrf, hd]
    | pyprojectToml f => simp [FilesystemOptions.user, hdir, hrf, hd]
    | uvToml f => simp [FilesystemOptions.user, hdir, hrf, hd]

theorem claim_C7_witness :
    FilesystemOptions.user fsNullCfg ⟨some ["cfg"], none⟩ = Except.ok none :=
  (claim_C7_user_dir_not_directory fsNullCfg ⟨some ["cfg"], none⟩ ["cfg"]
    rfl).1 (Error.ioErr IoKind.other) rfl rfl

/-- Claim C8: for an XDG config-dirs value `"first:second"` where only
`second` contains a readable candidate, the search returns the candidate
under `second` — directories are consulted strictly left to right and the
first directory containing a candidate wins. -/
theorem claim_C8_left_to_right_precedence (fs : FS)
    (h1 : fs.isFile ["first", "uv", "uv.toml"] = false)
    (h2 : fs.isFile ["second", "uv", "uv.toml"] = true) :
    locate_system_config_xdg fs (some "first:second") =
      some ["second", "uv", "uv.toml"] := by
  have e : locate_system_config_xdg fs (some "first:second") =
      locateLoop fs ["first", "second"] := rfl
  have p1 : Path.join (Path.join (Path.ofString "first") "uv") "uv.toml" =
      ["first", "uv", "uv.toml"] := rfl
  have p2 : Path.join (Path.join (Path.ofString "second") "uv") "uv.toml" =
      ["second", "uv", "uv.toml"] := rfl
  rw [e]
  simp [locateLoop, p1, p2, h1, h2]

theorem claim_C8_witness :
    locate_system_config_xdg fsXdgSecond (some "first:second") =
      some ["second", "uv", "uv.toml"] :=
  claim_C8_left_to_right_precedence fsXdgSecond (by decide) (by decide)

/-- Claim C9: the system-config search behaves identically when the XDG
config-dirs variable is unset and when it is set to the empty string, for
every filesystem state — both for `locate_system_config_xdg` and for the
full `system_config_file` lookup. -/
theorem claim_C9_unset_equals_empty (fs : FS) :
    locate_system_config_xdg fs none =
        locate_system_config_xdg fs (some "") ∧
      ∀ ucd : Option Path,
        system_config_file fs ⟨ucd, none⟩ =
          system_config_file fs ⟨ucd, some ""⟩ :=
  ⟨rfl, fun _ => rfl⟩

/-- Claim C10: for every directory containing a valid `uv.toml`,
`from_directory` returns the `uv.toml` configuration successfully even
when an adjacent `pyproject.toml` exists but fails to parse: the failure
is silently discarded — no error, no warning, and the returned
configuration is unchanged. -/
theorem claim_C10_adjacent_malformed_pyproject_ignored (fs : FS)
    (dir : Path) (c c2 : Content) (o : Options)
    (huv : fs.read (Path.join dir "uv.toml") = ReadResult.found c)
    (hparse : c.asOptions = some o)
    (hpy : fs.read (Path.join dir "pyproject.toml") = ReadResult.found c2)
    (hbad : c2.asPyproject = none) :
    FilesystemOptions.from_directory fs dir = (Except.ok (some o), []) := by
  simp [FilesystemOptions.from_directory, huv, hparse, hpy, hbad]

theorem claim_C10_witness :
    FilesystemOptions.from_directory fsUvBadPy ["d"] =
      (Except.ok (some optA), []) :=
  claim_C10_adjacent_malformed_pyproject_ignored fsUvBadPy ["d"] contUvA
    contBad optA (by decide) (by decide) (by decide) (by decide)

end UvSettings
